import Mathlib

/-!
# Verification of the ttn-esp32 high-level API (`TheThingsNetwork.h`)

This development embeds the data model and operations of the ttn-esp32
device library. The repository ships the C++ facade `TheThingsNetwork.h`,
whose member functions delegate to the C core (`ttn_*` functions). The
enums, structs, default arguments and delegation structure below are
translated from that header; the behaviour of the C core, which is not
part of the checked sources, is modelled from the specification and is
marked as such in the doc comments.

Bytes are modelled as `Nat` (each < 256 in practice), byte sequences as
`List Nat`, timestamps as `Nat` milliseconds.
-/

/-- Response codes, from `TheThingsNetwork.h` lines 23-29 (`TTNResponseCode`,
mirroring the C constants of the `ttn.h` core API). -/
inductive TTNResponseCode
  | kTTNErrorTransmissionFailed
  | kTTNErrorUnexpected
  | kTTNSuccessfulTransmission
  | kTTNSuccessfulReceive
deriving DecidableEq, Repr

/-- RX/TX window kinds, from `TheThingsNetwork.h` lines 35-53 (`TTNRxTxWindow`). -/
inductive TTNRxTxWindow
  | kTTNIdleWindow
  | kTTNTxWindow
  | kTTNRx1Window
  | kTTNRx2Window
deriving DecidableEq, Repr

/-- Spreading factor, from `TheThingsNetwork.h` lines 59-93 (`TTNSpreadingFactor`). -/
inductive TTNSpreadingFactor
  | kTTNSFNone
  | kTTNFSK
  | kTTNSF7
  | kTTNSF8
  | kTTNSF9
  | kTTNSF10
  | kTTNSF11
  | kTTNSF12
deriving DecidableEq, Repr

/-- Bandwidth, from `TheThingsNetwork.h` lines 99-117 (`TTNBandwidth`). -/
inductive TTNBandwidth
  | kTTNBWNone
  | kTTNBW125
  | kTTNBW250
  | kTTNBW500
deriving DecidableEq, Repr

/-- RF settings for TX or RX, from `TheThingsNetwork.h` lines 123-137
(`TTNRFSettings`): spreading factor, bandwidth, frequency in Hz. -/
structure TTNRFSettings where
  spreadingFactor : TTNSpreadingFactor
  bandwidth : TTNBandwidth
  frequency : Nat
deriving DecidableEq, Repr

/-- Pin configuration, from `TheThingsNetwork::configurePins` (lines 191-194):
SPI host and the five GPIO pin numbers passed through to `ttn_configure_pins`. -/
structure PinConfig where
  spiHost : Nat
  nss : Nat
  rxtx : Nat
  rst : Nat
  dio0 : Nat
  dio1 : Nat
deriving DecidableEq, Repr

/-- Modelled from the spec: the persistent credential record of the
Credential Store Adapter (the `ttn_provision` storage backend is not in the
checked sources).  Each field is absent (`none`) or a stored byte sequence:
DevEUI (8 bytes), AppEUI/JoinEUI (8 bytes), AppKey (16 bytes). -/
structure ProvisioningStore where
  devEui : Option (List Nat)
  appEui : Option (List Nat)
  appKey : Option (List Nat)
deriving DecidableEq, Repr

/-- Value of a single hexadecimal digit character, or `none` for a
non-hex character, by character code: 48-57 are the decimal digits,
65-70 the uppercase and 97-102 the lowercase hex letters. -/
def hexVal (c : Char) : Option Nat :=
  let code := c.toNat
  if 48 ≤ code ∧ code ≤ 57 then some (code - 48)
  else if 65 ≤ code ∧ code ≤ 70 then some (code - 55)
  else if 97 ≤ code ∧ code ≤ 102 then some (code - 87)
  else none

/-- Modelled from the spec: decoding of a hexadecimal credential string into
bytes, two hex characters per byte; fails on a non-hex character or an odd
number of characters. -/
def parseHexPairs : List Char → Option (List Nat)
  | [] => some []
  | [_] => none
  | c1 :: c2 :: rest =>
    match hexVal c1, hexVal c2, parseHexPairs rest with
    | some hi, some lo, some bs => some ((hi * 16 + lo) :: bs)
    | _, _, _ => none

/-- Modelled from the spec: a credential string is decoded only if it has
exactly the expected number of hex characters (16 for the EUIs, 32 for the
AppKey). -/
def decodeHexCredential (s : String) (nChars : Nat) : Option (List Nat) :=
  if s.length = nChars then parseHexPairs s.data else none

/-- Modelled from the spec: the fixed DevEUI derivation used by
`ttn_provision_with_mac` — insert the 2-byte constant 0xFFFE at the midpoint
of the 6-byte hardware identifier, producing an 8-byte EUI
(header doc, lines 232-233: MAC A0:B1:C2:01:02:03 becomes A0B1C2FFFE010203). -/
def deriveDevEuiFromHardwareId (hwId : List Nat) : List Nat :=
  hwId.take 3 ++ [0xFF, 0xFE] ++ hwId.drop 3

/-- Modelled from the spec: `ttn_provision` — validate the three hex strings
(16/16/32 hex characters); on success store all three byte sequences
atomically and return `true`; on any validation failure return `false`
leaving the store untouched. -/
def ttn_provision (store : ProvisioningStore) (devEui appEui appKey : String) :
    Bool × ProvisioningStore :=
  match decodeHexCredential devEui 16, decodeHexCredential appEui 16,
        decodeHexCredential appKey 32 with
  | some d, some a, some k => (true, ⟨some d, some a, some k⟩)
  | _, _, _ => (false, store)

/-- Modelled from the spec: `ttn_provision_with_mac` — derive the DevEUI from
the 6-byte hardware identifier, validate the two hex strings (16/32 hex
characters); on success store all three atomically, otherwise return `false`
leaving the store untouched. -/
def ttn_provision_with_mac (store : ProvisioningStore) (hwId : List Nat)
    (appEui appKey : String) : Bool × ProvisioningStore :=
  match decodeHexCredential appEui 16, decodeHexCredential appKey 32 with
  | some a, some k => (true, ⟨some (deriveDevEuiFromHardwareId hwId), some a, some k⟩)
  | _, _ => (false, store)

/-- A stored credential is complete and of the expected byte size. -/
def credentialOk (field : Option (List Nat)) (size : Nat) : Bool :=
  match field with
  | some bs => bs.length == size
  | none => false

/-- Modelled from the spec: `ttn_is_provisioned` — true only if all three
fields are present and of correct length (DevEUI 8, AppEUI 8, AppKey 16
bytes). -/
def ttn_is_provisioned (store : ProvisioningStore) : Bool :=
  credentialOk store.devEui 8 && credentialOk store.appEui 8 &&
    credentialOk store.appKey 16

/-- Modelled from the spec: the device state seen by the session manager.
`joined` records a completed OTAA activation; `uplinkCounter` and
`lastDownlinkCounter` are the per-session frame counters;
`now` is the current time and `dutyEarliest` the Duty-Cycle Scheduler's
earliest legal send time for the targeted sub-band; the three RF-settings
fields are the per-window value snapshots. -/
structure TTNState where
  store : ProvisioningStore
  pins : PinConfig
  joined : Bool
  uplinkCounter : Nat
  lastDownlinkCounter : Nat
  now : Nat
  dutyEarliest : Nat
  txSettingsV : TTNRFSettings
  rx1SettingsV : TTNRFSettings
  rx2SettingsV : TTNRFSettings
deriving DecidableEq, Repr

/-- Modelled from the spec: the asynchronous radio events a single
transmission attempt can observe — a radio-level send failure, both receive
windows timing out, or a well-formed downlink frame arriving in one of the
two receive windows, carrying the downlink frame counter, the
acknowledgment bit, the port, and the application payload. -/
inductive RadioOutcome
  | sendFailed
  | timeout
  | frame (window : TTNRxTxWindow) (counter : Nat) (ackBit : Bool)
      (fPort : Nat) (payload : List Nat)
deriving DecidableEq, Repr

/-- Internal status of one transmission attempt. -/
inductive AttemptStatus
  | radioFailed
  | gotReceive
  | acked
  | noFrame
deriving DecidableEq, Repr

/-- Result of one transmission attempt: status, successor state, the time
the radio send was initiated, the uplink counter value used for the MIC of
this attempt, and the payloads handed to Message Dispatch. -/
structure AttemptOut where
  status : AttemptStatus
  st : TTNState
  sendTime : Nat
  micCounter : Nat
  delivered : List (List Nat × Nat)
deriving Repr

/-- Modelled from the spec (§4.4 steps 2-5): a single transmission attempt.
The attempt requests the earliest legal send time from the Duty-Cycle
Scheduler and suspends until it is reached; the MIC is computed with the
current uplink frame counter, which is incremented before the radio send
and stays incremented on every outcome; after the send the scheduler
accounts the airtime. A downlink is accepted only when its frame counter
strictly exceeds the last accepted one; otherwise it is silently dropped
(treated like a window timeout). An accepted downlink with an application
payload is handed to Message Dispatch. -/
def attemptTransmit (st : TTNState) (airtime : Nat) (outcome : RadioOutcome) :
    AttemptOut :=
  let sendTime := max st.now st.dutyEarliest
  let micCounter := st.uplinkCounter
  let st1 : TTNState :=
    { st with uplinkCounter := st.uplinkCounter + 1,
              now := sendTime + airtime,
              dutyEarliest := sendTime + airtime }
  match outcome with
  | .sendFailed => ⟨.radioFailed, st1, sendTime, micCounter, []⟩
  | .timeout => ⟨.noFrame, st1, sendTime, micCounter, []⟩
  | .frame _ cnt ack fPort payload =>
    if st1.lastDownlinkCounter < cnt then
      let st2 : TTNState := { st1 with lastDownlinkCounter := cnt }
      match payload with
      | [] => ⟨if ack then .acked else .noFrame, st2, sendTime, micCounter, []⟩
      | p :: ps => ⟨.gotReceive, st2, sendTime, micCounter, [(p :: ps, fPort)]⟩
    else
      ⟨.noFrame, st1, sendTime, micCounter, []⟩

/-- Trace of one `ttn_transmit_message` call: the response code, the final
state, the times at which a radio send was initiated (one per attempt), the
uplink counter values used for the MIC (one per attempt), and the payloads
handed to the registered callback. -/
structure TxTrace where
  code : TTNResponseCode
  finalState : TTNState
  sendTimes : List Nat
  micCounters : List Nat
  delivered : List (List Nat × Nat)
deriving Repr

/-- Modelled from the spec: the bounded automatic-retransmission count for
confirmed uplinks (the spec requires a bound but leaves its value open). -/
def maxRetransmissions : Nat := 8

/-- Modelled from the spec (§4.4 step 4 and §7): the attempt loop. Each
iteration performs one transmission attempt against the next radio outcome
(a missing outcome means both windows time out). An accepted downlink with
an application payload resolves as `kTTNSuccessfulReceive`; an
acknowledgment resolves as `kTTNSuccessfulTransmission`; with nothing
accepted an unconfirmed uplink resolves as `kTTNSuccessfulTransmission`
while a confirmed one is retransmitted; a radio-level send failure is
retried. Exhausting the attempt budget resolves as
`kTTNErrorTransmissionFailed`. -/
def transmitLoop (airtime : Nat) (confirm : Bool) :
    Nat → TTNState → List RadioOutcome → TxTrace
  | 0, st, _ => ⟨.kTTNErrorTransmissionFailed, st, [], [], []⟩
  | fuel + 1, st, outcomes =>
    let a := attemptTransmit st airtime (outcomes.headD RadioOutcome.timeout)
    match a.status with
    | .gotReceive =>
      ⟨.kTTNSuccessfulReceive, a.st, [a.sendTime], [a.micCounter], a.delivered⟩
    | .acked =>
      ⟨.kTTNSuccessfulTransmission, a.st, [a.sendTime], [a.micCounter], a.delivered⟩
    | .noFrame =>
      if confirm then
        let t := transmitLoop airtime confirm fuel a.st outcomes.tail
        ⟨t.code, t.finalState, a.sendTime :: t.sendTimes,
          a.micCounter :: t.micCounters, a.delivered ++ t.delivered⟩
      else
        ⟨.kTTNSuccessfulTransmission, a.st, [a.sendTime], [a.micCounter], a.delivered⟩
    | .radioFailed =>
      let t := transmitLoop airtime confirm fuel a.st outcomes.tail
      ⟨t.code, t.finalState, a.sendTime :: t.sendTimes,
        a.micCounter :: t.micCounters, a.delivered ++ t.delivered⟩

/-- Modelled from the spec (§4.4 step 2): planned airtime, computed from the
payload length and the current spreading factor (longer payloads and higher
spreading factors give longer airtime). -/
def sfScale : TTNSpreadingFactor → Nat
  | .kTTNSFNone => 1
  | .kTTNFSK => 1
  | .kTTNSF7 => 1
  | .kTTNSF8 => 2
  | .kTTNSF9 => 4
  | .kTTNSF10 => 8
  | .kTTNSF11 => 16
  | .kTTNSF12 => 32

/-- Modelled from the spec: planned airtime of an uplink of `length` payload
bytes (13 bytes of LoRaWAN overhead) at the current TX settings. -/
def plannedAirtime (st : TTNState) (length : Nat) : Nat :=
  (length + 13) * sfScale st.txSettingsV.spreadingFactor

/-- Modelled from the spec (§4.4): `ttn_transmit_message`. Rejects with
`kTTNErrorUnexpected` when the device is not joined; otherwise runs the
attempt loop with an attempt budget of one initial transmission plus the
bounded retransmission count. -/
def ttn_transmit_message (st : TTNState) (payload : List Nat) (length : Nat)
    (port : Nat) (confirm : Bool) (outcomes : List RadioOutcome) : TxTrace :=
  if st.joined then
    transmitLoop (plannedAirtime st length) confirm (maxRetransmissions + 1) st outcomes
  else
    ⟨.kTTNErrorUnexpected, st, [], [], []⟩

/-- Modelled from the spec and the header doc (lines 171-176): `ttn_reset`
resets the LoRaWAN radio and ends the session (`join()` must be called to
restart communication); it neither clears the provisioned keys nor the
configured pins. -/
def ttn_reset (st : TTNState) : TTNState :=
  { st with joined := false, uplinkCounter := 0, lastDownlinkCounter := 0 }

/-- Modelled from the spec: `ttn_get_rf_settings` returns the RF-settings
snapshot of the requested window; the idle window has no settings. -/
def ttn_get_rf_settings (st : TTNState) (window : TTNRxTxWindow) : TTNRFSettings :=
  match window with
  | .kTTNIdleWindow => ⟨.kTTNSFNone, .kTTNBWNone, 0⟩
  | .kTTNTxWindow => st.txSettingsV
  | .kTTNRx1Window => st.rx1SettingsV
  | .kTTNRx2Window => st.rx2SettingsV

namespace TheThingsNetwork

/-- `TheThingsNetwork::transmitMessage` (header lines 305-308): delegates to
`ttn_transmit_message` with the payload, length, port and confirm flag. -/
def transmitMessage (st : TTNState) (payload : List Nat) (length : Nat)
    (port : Nat) (confirm : Bool) (outcomes : List RadioOutcome) : TxTrace :=
  ttn_transmit_message st payload length port confirm outcomes

/-- `TheThingsNetwork::transmitMessage` called with only payload and length:
the header declares `port_t port = 1, bool confirm = false` as default
arguments (line 305), so such a call is the four-argument call at
`port = 1`, `confirm = false`. -/
def transmitMessageDefault (st : TTNState) (payload : List Nat) (length : Nat)
    (outcomes : List RadioOutcome) : TxTrace :=
  transmitMessage st payload length 1 false outcomes

/-- `TheThingsNetwork::provision` (header line 223): delegates to
`ttn_provision`. -/
def provision (st : TTNState) (devEui appEui appKey : String) : Bool × TTNState :=
  let r := ttn_provision st.store devEui appEui appKey
  (r.1, { st with store := r.2 })

/-- `TheThingsNetwork::provisionWithMAC` (header line 247): delegates to
`ttn_provision_with_mac`. -/
def provisionWithMAC (st : TTNState) (hwId : List Nat) (appEui appKey : String) :
    Bool × TTNState :=
  let r := ttn_provision_with_mac st.store hwId appEui appKey
  (r.1, { st with store := r.2 })

/-- `TheThingsNetwork::isProvisioned` (header line 332): delegates to
`ttn_is_provisioned`. -/
def isProvisioned (st : TTNState) : Bool :=
  ttn_is_provisioned st.store

/-- `TheThingsNetwork::reset` (header line 176): delegates to `ttn_reset`. -/
def reset (st : TTNState) : TTNState :=
  ttn_reset st

/-- `TheThingsNetwork::getRFSettings` (header line 387). -/
def getRFSettings (st : TTNState) (window : TTNRxTxWindow) : TTNRFSettings :=
  ttn_get_rf_settings st window

/-- `TheThingsNetwork::txSettings` (header line 393):
`return getRFSettings(kTTNTxWindow)`. -/
def txSettings (st : TTNState) : TTNRFSettings :=
  getRFSettings st .kTTNTxWindow

/-- `TheThingsNetwork::rx1Settings` (header line 399):
`return getRFSettings(kTTNRx1Window)`. -/
def rx1Settings (st : TTNState) : TTNRFSettings :=
  getRFSettings st .kTTNRx1Window

/-- `TheThingsNetwork::rx2Settings` (header line 405):
`return getRFSettings(kTTNRx2Window)`. -/
def rx2Settings (st : TTNState) : TTNRFSettings :=
  getRFSettings st .kTTNRx2Window

end TheThingsNetwork

/-- A credential string is malformed for an expected character count when its
length is wrong or it contains a non-hexadecimal character. -/
def malformedHex (s : String) (nChars : Nat) : Prop :=
  s.length ≠ nChars ∨ ∃ c ∈ s.data, hexVal c = none

/-- Concrete RF settings used to exercise the definitions. -/
def sampleSettings : TTNRFSettings :=
  ⟨.kTTNSF7, .kTTNBW125, 868100000⟩

/-- Concrete pin configuration used to exercise the definitions. -/
def samplePins : PinConfig :=
  ⟨1, 18, 0, 14, 26, 33⟩

/-- Concrete fully provisioned credential store. -/
def sampleStore : ProvisioningStore :=
  ⟨some [0, 0, 0, 0, 0, 0, 0, 1], some [0, 0, 0, 0, 0, 0, 0, 2],
    some (List.replicate 16 3)⟩

/-- Concrete joined device state used to exercise the definitions. -/
def sampleState : TTNState :=
  { store := sampleStore
    pins := samplePins
    joined := true
    uplinkCounter := 5
    lastDownlinkCounter := 7
    now := 1000
    dutyEarliest := 1500
    txSettingsV := sampleSettings
    rx1SettingsV := sampleSettings
    rx2SettingsV := ⟨.kTTNSF9, .kTTNBW125, 869525000⟩ }

/-- Concrete unprovisioned, not-joined device state. -/
def emptyState : TTNState :=
  { store := ⟨none, none, none⟩
    pins := samplePins
    joined := false
    uplinkCounter := 0
    lastDownlinkCounter := 0
    now := 0
    dutyEarliest := 0
    txSettingsV := sampleSettings
    rx1SettingsV := sampleSettings
    rx2SettingsV := sampleSettings }

/-! ## Helper lemmas about single transmission attempts -/

theorem attemptTransmit_uplinkCounter (st : TTNState) (airtime : Nat)
    (o : RadioOutcome) :
    (attemptTransmit st airtime o).st.uplinkCounter = st.uplinkCounter + 1 := by
  unfold attemptTransmit
  cases o with
  | sendFailed => rfl
  | timeout => rfl
  | frame w cnt ack fPort payload =>
    dsimp only
    split
    · cases payload <;> rfl
    · rfl

theorem attemptTransmit_micCounter (st : TTNState) (airtime : Nat)
    (o : RadioOutcome) :
    (attemptTransmit st airtime o).micCounter = st.uplinkCounter := by
  unfold attemptTransmit
  cases o with
  | sendFailed => rfl
  | timeout => rfl
  | frame w cnt ack fPort payload =>
    dsimp only
    split
    · cases payload <;> rfl
    · rfl

theorem attemptTransmit_sendTime_ge (st : TTNState) (airtime : Nat)
    (o : RadioOutcome) :
    st.dutyEarliest ≤ (attemptTransmit st airtime o).sendTime := by
  have hmax : st.dutyEarliest ≤ max st.now st.dutyEarliest := le_max_right _ _
  unfold attemptTransmit
  cases o with
  | sendFailed => exact hmax
  | timeout => exact hmax
  | frame w cnt ack fPort payload =>
    dsimp only
    split
    · cases payload <;> exact hmax
    · exact hmax

theorem attemptTransmit_dutyEarliest_le (st : TTNState) (airtime : Nat)
    (o : RadioOutcome) :
    st.dutyEarliest ≤ (attemptTransmit st airtime o).st.dutyEarliest := by
  have hmax : st.dutyEarliest ≤ max st.now st.dutyEarliest + airtime :=
    le_trans (le_max_right _ _) (Nat.le_add_right _ _)
  unfold attemptTransmit
  cases o with
  | sendFailed => exact hmax
  | timeout => exact hmax
  | frame w cnt ack fPort payload =>
    dsimp only
    split
    · cases payload <;> exact hmax
    · exact hmax

theorem attemptTransmit_store (st : TTNState) (airtime : Nat)
    (o : RadioOutcome) :
    (attemptTransmit st airtime o).st.store = st.store := by
  unfold attemptTransmit
  cases o with
  | sendFailed => rfl
  | timeout => rfl
  | frame w cnt ack fPort payload =>
    dsimp only
    split
    · cases payload <;> rfl
    · rfl

theorem attemptTransmit_pins (st : TTNState) (airtime : Nat)
    (o : RadioOutcome) :
    (attemptTransmit st airtime o).st.pins = st.pins := by
  unfold attemptTransmit
  cases o with
  | sendFailed => rfl
  | timeout => rfl
  | frame w cnt ack fPort payload =>
    dsimp only
    split
    · cases payload <;> rfl
    · rfl

/-! ## Helper lemmas about the attempt loop -/

theorem transmitLoop_counters (airtime : Nat) (confirm : Bool) :
    ∀ (fuel : Nat) (st : TTNState) (outcomes : List RadioOutcome),
      ∃ n : Nat,
        (transmitLoop airtime confirm fuel st outcomes).micCounters =
          List.range' st.uplinkCounter n ∧
        (transmitLoop airtime confirm fuel st outcomes).finalState.uplinkCounter =
          st.uplinkCounter + n ∧
        (fuel ≠ 0 → n ≠ 0)
  | 0, st, outcomes => ⟨0, by simp [transmitLoop], by simp [transmitLoop], by simp⟩
  | fuel + 1, st, outcomes => by
    have hm := attemptTransmit_micCounter st airtime (outcomes.headD RadioOutcome.timeout)
    have hu := attemptTransmit_uplinkCounter st airtime (outcomes.headD RadioOutcome.timeout)
    obtain ⟨n, h1, h2, _⟩ := transmitLoop_counters airtime confirm fuel
      (attemptTransmit st airtime (outcomes.headD RadioOutcome.timeout)).st outcomes.tail
    simp only [transmitLoop]
    split
    · exact ⟨1, by dsimp only; rw [List.range'_one, hm], by dsimp only; exact hu,
        fun _ => one_ne_zero⟩
    · exact ⟨1, by dsimp only; rw [List.range'_one, hm], by dsimp only; exact hu,
        fun _ => one_ne_zero⟩
    · split
      · refine ⟨n + 1, ?_, ?_, fun _ => Nat.succ_ne_zero n⟩
        · dsimp only
          rw [List.range'_succ, hm, h1, hu]
        · dsimp only
          rw [h2, hu]
          omega
      · exact ⟨1, by dsimp only; rw [List.range'_one, hm], by dsimp only; exact hu,
          fun _ => one_ne_zero⟩
    · refine ⟨n + 1, ?_, ?_, fun _ => Nat.succ_ne_zero n⟩
      · dsimp only
        rw [List.range'_succ, hm, h1, hu]
      · dsimp only
        rw [h2, hu]
        omega

theorem transmitLoop_sendTimes (airtime : Nat) (confirm : Bool) :
    ∀ (fuel : Nat) (st : TTNState) (outcomes : List RadioOutcome),
      ∀ t ∈ (transmitLoop airtime confirm fuel st outcomes).sendTimes,
        st.dutyEarliest ≤ t
  | 0, st, outcomes => by simp [transmitLoop]
  | fuel + 1, st, outcomes => by
    have hs := attemptTransmit_sendTime_ge st airtime (outcomes.headD RadioOutcome.timeout)
    have hd := attemptTransmit_dutyEarliest_le st airtime (outcomes.headD RadioOutcome.timeout)
    have IH := transmitLoop_sendTimes airtime confirm fuel
      (attemptTransmit st airtime (outcomes.headD RadioOutcome.timeout)).st outcomes.tail
    simp only [transmitLoop]
    split
    · intro t ht
      dsimp only at ht
      rw [List.mem_singleton] at ht
      exact ht ▸ hs
    · intro t ht
      dsimp only at ht
      rw [List.mem_singleton] at ht
      exact ht ▸ hs
    · split
      · intro t ht
        dsimp only at ht
        rw [List.mem_cons] at ht
        rcases ht with h | h
        · exact h ▸ hs
        · exact le_trans hd (IH t h)
      · intro t ht
        dsimp only at ht
        rw [List.mem_singleton] at ht
        exact ht ▸ hs
    · intro t ht
      dsimp only at ht
      rw [List.mem_cons] at ht
      rcases ht with h | h
      · exact h ▸ hs
      · exact le_trans hd (IH t h)

theorem transmitLoop_store (airtime : Nat) (confirm : Bool) :
    ∀ (fuel : Nat) (st : TTNState) (outcomes : List RadioOutcome),
      (transmitLoop airtime confirm fuel st outcomes).finalState.store = st.store ∧
      (transmitLoop airtime confirm fuel st outcomes).finalState.pins = st.pins
  | 0, st, outcomes => by simp [transmitLoop]
  | fuel + 1, st, outcomes => by
    have hst := attemptTransmit_store st airtime (outcomes.headD RadioOutcome.timeout)
    have hp := attemptTransmit_pins st airtime (outcomes.headD RadioOutcome.timeout)
    have IH := transmitLoop_store airtime confirm fuel
      (attemptTransmit st airtime (outcomes.headD RadioOutcome.timeout)).st outcomes.tail
    simp only [transmitLoop]
    split
    · exact ⟨hst, hp⟩
    · exact ⟨hst, hp⟩
    · split
      · exact ⟨IH.1.trans hst, IH.2.trans hp⟩
      · exact ⟨hst, hp⟩
    · exact ⟨IH.1.trans hst, IH.2.trans hp⟩

/-! ## Helper lemmas about hex-credential decoding -/

theorem parseHexPairs_none_of_bad :
    ∀ cs : List Char, (∃ c ∈ cs, hexVal c = none) → parseHexPairs cs = none
  | [], h => by simp at h
  | [_], _ => rfl
  | c1 :: c2 :: rest, h => by
    rcases h with ⟨c, hc, hnone⟩
    simp only [List.mem_cons] at hc
    simp only [parseHexPairs]
    rcases hc with rfl | rfl | hc
    · rw [hnone] <;> cases hexVal c2 <;> cases parseHexPairs rest <;> rfl
    · rw [hnone] <;> cases hexVal c1 <;> cases parseHexPairs rest <;> rfl
    · rw [parseHexPairs_none_of_bad rest ⟨c, hc, hnone⟩] <;>
        cases hexVal c1 <;> cases hexVal c2 <;> rfl

theorem decodeHexCredential_none_of_malformed (s : String) (nChars : Nat)
    (h : malformedHex s nChars) : decodeHexCredential s nChars = none := by
  unfold decodeHexCredential
  rcases h with h | h
  · simp [h]
  · split
    · exact parseHexPairs_none_of_bad s.data h
    · rfl

/-! ## Claim theorems -/

/-- Claim C6: `isProvisioned()` returns true if and only if all three
credentials (DevEUI, JoinEUI/AppEUI, AppKey) are present and of the correct
size (8, 8 and 16 bytes respectively); before all three are set it returns
false. -/
theorem isProvisioned_iff_complete (st : TTNState) :
    (TheThingsNetwork.isProvisioned st = true ↔
      (∃ d, st.store.devEui = some d ∧ d.length = 8) ∧
      (∃ a, st.store.appEui = some a ∧ a.length = 8) ∧
      (∃ k, st.store.appKey = some k ∧ k.length = 16)) ∧
    ((st.store.devEui = none ∨ st.store.appEui = none ∨ st.store.appKey = none) →
      TheThingsNetwork.isProvisioned st = false) := by
  rcases hd : st.store.devEui with _ | d <;>
    rcases ha : st.store.appEui with _ | a <;>
      rcases hk : st.store.appKey with _ | k <;>
        simp [TheThingsNetwork.isProvisioned, ttn_is_provisioned, credentialOk,
          hd, ha, hk, and_assoc]

/-- Claim C6 witness: an unprovisioned store reports `false`. -/
theorem isProvisioned_iff_complete_witness :
    TheThingsNetwork.isProvisioned emptyState = false :=
  (isProvisioned_iff_complete emptyState).2 (Or.inl rfl)

/-- Claim C7: `deriveDevEuiFromHardwareId` is a deterministic pure function:
every 6-byte hardware identifier yields the unique 8-byte EUI obtained by
inserting the 2-byte constant 0xFFFE at the midpoint; in particular the
input A0:B1:C2:01:02:03 yields A0B1C2FFFE010203. -/
theorem deriveDevEuiFromHardwareId_midpoint (b0 b1 b2 b3 b4 b5 : Nat) :
    deriveDevEuiFromHardwareId [b0, b1, b2, b3, b4, b5] =
      [b0, b1, b2, 0xFF, 0xFE, b3, b4, b5] ∧
    (deriveDevEuiFromHardwareId [b0, b1, b2, b3, b4, b5]).length = 8 ∧
    deriveDevEuiFromHardwareId [0xA0, 0xB1, 0xC2, 0x01, 0x02, 0x03] =
      [0xA0, 0xB1, 0xC2, 0xFF, 0xFE, 0x01, 0x02, 0x03] :=
  ⟨rfl, rfl, rfl⟩

/-- Claim C8: `reset()` leaves the stored credentials and the configured pins
unchanged, so `isProvisioned()` yields the same answer after a `reset()` as
before it — in particular a provisioned device stays provisioned. -/
theorem reset_preserves_credentials (st : TTNState) :
    (TheThingsNetwork.reset st).store = st.store ∧
    (TheThingsNetwork.reset st).pins = st.pins ∧
    TheThingsNetwork.isProvisioned (TheThingsNetwork.reset st) =
      TheThingsNetwork.isProvisioned st :=
  ⟨rfl, rfl, rfl⟩

/-- Claim C9: calling `transmitMessage` with only payload and length equals
calling it with `port = 1` and `confirm = false` — the header declares these
default arguments — with the same result code, final state and trace. -/
theorem transmitMessage_default_args (st : TTNState) (payload : List Nat)
    (length : Nat) (outcomes : List RadioOutcome) :
    TheThingsNetwork.transmitMessageDefault st payload length outcomes =
      TheThingsNetwork.transmitMessage st payload length 1 false outcomes :=
  rfl

/-- Claim C10: the per-window RF-settings accessors are definitional
specialisations of `getRFSettings`: in every state `txSettings()` equals
`getRFSettings(kTTNTxWindow)`, `rx1Settings()` equals
`getRFSettings(kTTNRx1Window)`, and `rx2Settings()` equals
`getRFSettings(kTTNRx2Window)`. -/
theorem window_settings_specialise_getRFSettings (st : TTNState) :
    TheThingsNetwork.txSettings st =
      TheThingsNetwork.getRFSettings st TTNRxTxWindow.kTTNTxWindow ∧
    TheThingsNetwork.rx1Settings st =
      TheThingsNetwork.getRFSettings st TTNRxTxWindow.kTTNRx1Window ∧
    TheThingsNetwork.rx2Settings st =
      TheThingsNetwork.getRFSettings st TTNRxTxWindow.kTTNRx2Window :=
  ⟨rfl, rfl, rfl⟩

/-- Claim C5: a `provision` (or `provisionWithMAC`) call whose credential
strings have malformed length or contain non-hexadecimal characters returns
`false` and leaves the persistently stored credential record — indeed the
whole device state — entirely unchanged. -/
theorem provision_malformed_no_mutation (st : TTNState)
    (devEui appEui appKey : String) (hwId : List Nat) :
    ((malformedHex devEui 16 ∨ malformedHex appEui 16 ∨ malformedHex appKey 32) →
      TheThingsNetwork.provision st devEui appEui appKey = (false, st)) ∧
    ((malformedHex appEui 16 ∨ malformedHex appKey 32) →
      TheThingsNetwork.provisionWithMAC st hwId appEui appKey = (false, st)) := by
  constructor
  · intro h
    have hres : ttn_provision st.store devEui appEui appKey = (false, st.store) := by
      unfold ttn_provision
      rcases h with h | h | h
      · rw [decodeHexCredential_none_of_malformed devEui 16 h]
      · rw [decodeHexCredential_none_of_malformed appEui 16 h] <;>
          cases decodeHexCredential devEui 16 <;> rfl
      · rw [decodeHexCredential_none_of_malformed appKey 32 h] <;>
          cases decodeHexCredential devEui 16 <;>
            cases decodeHexCredential appEui 16 <;> rfl
    simp [TheThingsNetwork.provision, hres]
  · intro h
    have hres : ttn_provision_with_mac st.store hwId appEui appKey =
        (false, st.store) := by
      unfold ttn_provision_with_mac
      rcases h with h | h
      · rw [decodeHexCredential_none_of_malformed appEui 16 h]
      · rw [decodeHexCredential_none_of_malformed appKey 32 h] <;>
          cases decodeHexCredential appEui 16 <;> rfl
    simp [TheThingsNetwork.provisionWithMAC, hres]

/-- Claim C5 witness: provisioning with a DevEUI string of the wrong length
(and with a non-hex AppKey) fails and leaves the state unchanged, for both
entry points. -/
theorem provision_malformed_no_mutation_witness :
    TheThingsNetwork.provision emptyState "0102" "0102030405060708"
        "000102030405060708090A0B0C0D0EZZ" = (false, emptyState) ∧
    TheThingsNetwork.provisionWithMAC emptyState [1, 2, 3, 4, 5, 6]
        "0102030405060708" "000102030405060708090A0B0C0D0EZZ" =
      (false, emptyState) :=
  ⟨(provision_malformed_no_mutation emptyState "0102" "0102030405060708"
      "000102030405060708090A0B0C0D0EZZ" [1, 2, 3, 4, 5, 6]).1
      (Or.inl (Or.inl (by decide))),
   (provision_malformed_no_mutation emptyState "0102" "0102030405060708"
      "000102030405060708090A0B0C0D0EZZ" [1, 2, 3, 4, 5, 6]).2
      (Or.inr (Or.inr ⟨'Z', by decide, by decide⟩))⟩

/-- Claim C2: every `transmitMessage` call that reaches the transmit step
uses the current uplink frame counter for the MIC of its first attempt and
increments it before the radio send; the increment persists whatever the
radio outcomes are (including send failures), the final counter exceeds the
initial one by exactly the number of attempts, and no counter value is used
for two attempts: the MIC counters form the duplicate-free range starting
at the initial counter. -/
theorem transmitMessage_uplinkCounter_fresh (st : TTNState) (payload : List Nat)
    (length port : Nat) (confirm : Bool) (outcomes : List RadioOutcome)
    (hj : st.joined = true) :
    ∃ n : Nat, n ≠ 0 ∧
      (TheThingsNetwork.transmitMessage st payload length port confirm
          outcomes).micCounters = List.range' st.uplinkCounter n ∧
      (TheThingsNetwork.transmitMessage st payload length port confirm
          outcomes).finalState.uplinkCounter = st.uplinkCounter + n ∧
      (TheThingsNetwork.transmitMessage st payload length port confirm
          outcomes).micCounters.Nodup := by
  have hEq : TheThingsNetwork.transmitMessage st payload length port confirm
      outcomes = transmitLoop (plannedAirtime st length) confirm
        (maxRetransmissions + 1) st outcomes := by
    simp [TheThingsNetwork.transmitMessage, ttn_transmit_message, hj]
  rw [hEq]
  obtain ⟨n, h1, h2, h3⟩ := transmitLoop_counters (plannedAirtime st length)
    confirm (maxRetransmissions + 1) st outcomes
  exact ⟨n, h3 (Nat.succ_ne_zero _), h1, h2,
    h1.symm ▸ List.nodup_range' _ _ 1 one_pos⟩

/-- Claim C2 witness: a concrete call whose single radio outcome is a send
failure still uses fresh counters on all retransmission attempts. -/
theorem transmitMessage_uplinkCounter_fresh_witness :
    ∃ n : Nat, n ≠ 0 ∧
      (TheThingsNetwork.transmitMessage sampleState [1, 2] 2 1 false
          [RadioOutcome.sendFailed]).micCounters = List.range' 5 n ∧
      (TheThingsNetwork.transmitMessage sampleState [1, 2] 2 1 false
          [RadioOutcome.sendFailed]).finalState.uplinkCounter = 5 + n ∧
      (TheThingsNetwork.transmitMessage sampleState [1, 2] 2 1 false
          [RadioOutcome.sendFailed]).micCounters.Nodup :=
  transmitMessage_uplinkCounter_fresh sampleState [1, 2] 2 1 false
    [RadioOutcome.sendFailed] (by decide)

/-- Claim C3: radio transmission is never initiated before the earliest
legal send time computed by the Duty-Cycle Scheduler for the targeted
sub-band at request time — every send-initiation time of the call is at
least the scheduler value held when the call was made (the call suspends
until that time is reached). -/
theorem transmitMessage_respects_dutyCycle (st : TTNState) (payload : List Nat)
    (length port : Nat) (confirm : Bool) (outcomes : List RadioOutcome) :
    ∀ t ∈ (TheThingsNetwork.transmitMessage st payload length port confirm
        outcomes).sendTimes, st.dutyEarliest ≤ t := by
  by_cases hj : st.joined = true
  · have hEq : TheThingsNetwork.transmitMessage st payload length port confirm
        outcomes = transmitLoop (plannedAirtime st length) confirm
          (maxRetransmissions + 1) st outcomes := by
      simp [TheThingsNetwork.transmitMessage, ttn_transmit_message, hj]
    rw [hEq]
    exact transmitLoop_sendTimes (plannedAirtime st length) confirm
      (maxRetransmissions + 1) st outcomes
  · have hEq : TheThingsNetwork.transmitMessage st payload length port confirm
        outcomes = ⟨.kTTNErrorUnexpected, st, [], [], []⟩ := by
      simp [TheThingsNetwork.transmitMessage, ttn_transmit_message, hj]
    rw [hEq]
    intro t ht
    simp at ht

/-- Claim C3 witness: in the sample state (current time 1000, scheduler
earliest time 1500) the single transmission of an unconfirmed uplink is
initiated at time 1500, not before the scheduler value. -/
theorem transmitMessage_respects_dutyCycle_witness :
    sampleState.dutyEarliest ≤ 1500 :=
  transmitMessage_respects_dutyCycle sampleState [1] 1 1 false [] 1500
    (by decide)

/-- Claim C1: a downlink is accepted during `transmitMessage` only when its
frame counter strictly exceeds the last accepted downlink counter (the new
last-accepted counter is then the strictly greater received one); a downlink
whose counter is less than or equal to the last accepted value is silently
dropped — the registered callback receives nothing, the stored counter is
unchanged, and the call still resolves as `kTTNSuccessfulTransmission`
rather than an error. -/
theorem downlinkCounter_replay_protection (st : TTNState) (payload : List Nat)
    (length port : Nat) (w : TTNRxTxWindow) (cnt fPort : Nat) (ack : Bool)
    (dl : List Nat) (hj : st.joined = true) :
    (cnt ≤ st.lastDownlinkCounter →
      (TheThingsNetwork.transmitMessage st payload length port false
          [RadioOutcome.frame w cnt ack fPort dl]).code =
        TTNResponseCode.kTTNSuccessfulTransmission ∧
      (TheThingsNetwork.transmitMessage st payload length port false
          [RadioOutcome.frame w cnt ack fPort dl]).delivered = [] ∧
      (TheThingsNetwork.transmitMessage st payload length port false
          [RadioOutcome.frame w cnt ack fPort dl]).finalState.lastDownlinkCounter =
        st.lastDownlinkCounter) ∧
    (st.lastDownlinkCounter < cnt →
      (TheThingsNetwork.transmitMessage st payload length port false
          [RadioOutcome.frame w cnt ack fPort dl]).finalState.lastDownlinkCounter =
        cnt) := by
  have hEq : TheThingsNetwork.transmitMessage st payload length port false
      [RadioOutcome.frame w cnt ack fPort dl] =
        transmitLoop (plannedAirtime st length) false (maxRetransmissions + 1)
          st [RadioOutcome.frame w cnt ack fPort dl] := by
    simp [TheThingsNetwork.transmitMessage, ttn_transmit_message, hj]
  constructor
  · intro hle
    have hnlt : ¬ st.lastDownlinkCounter < cnt := not_lt.mpr hle
    rw [hEq]
    simp [transmitLoop, attemptTransmit, hnlt]
  · intro hlt
    rw [hEq]
    cases dl <;> cases ack <;> simp [transmitLoop, attemptTransmit, hlt]

/-- Claim C1 witness: in the sample state (last accepted downlink counter 7)
a downlink repeating counter 7 in RX2 is dropped — nothing is delivered, the
counter stays 7, the call reports a successful transmission — while a
counter-8 downlink is accepted and advances the counter to 8. -/
theorem downlinkCounter_replay_protection_witness :
    ((TheThingsNetwork.transmitMessage sampleState [1] 1 1 false
        [RadioOutcome.frame TTNRxTxWindow.kTTNRx2Window 7 false 1 [42]]).code =
      TTNResponseCode.kTTNSuccessfulTransmission ∧
    (TheThingsNetwork.transmitMessage sampleState [1] 1 1 false
        [RadioOutcome.frame TTNRxTxWindow.kTTNRx2Window 7 false 1 [42]]).delivered =
      [] ∧
    (TheThingsNetwork.transmitMessage sampleState [1] 1 1 false
        [RadioOutcome.frame TTNRxTxWindow.kTTNRx2Window 7 false 1
          [42]]).finalState.lastDownlinkCounter = sampleState.lastDownlinkCounter) ∧
    (TheThingsNetwork.transmitMessage sampleState [1] 1 1 false
        [RadioOutcome.frame TTNRxTxWindow.kTTNRx2Window 8 false 1
          [42]]).finalState.lastDownlinkCounter = 8 :=
  ⟨(downlinkCounter_replay_protection sampleState [1] 1 1
      TTNRxTxWindow.kTTNRx2Window 7 1 false [42] (by decide)).1 (by decide),
   (downlinkCounter_replay_protection sampleState [1] 1 1
      TTNRxTxWindow.kTTNRx2Window 8 1 false [42] (by decide)).2 (by decide)⟩

/-- Claim C4: `transmitMessage` always returns one of the four response
codes; it returns `kTTNErrorUnexpected` when the device is not currently
joined, and `kTTNSuccessfulReceive` whenever a counter-valid downlink with a
non-empty application payload was accepted in RX1 or RX2. -/
theorem transmitMessage_responseCodes (st : TTNState) (payload : List Nat)
    (length port : Nat) (confirm : Bool) (outcomes : List RadioOutcome)
    (w : TTNRxTxWindow) (cnt fPort : Nat) (ack : Bool) (dl : List Nat) :
    ((TheThingsNetwork.transmitMessage st payload length port confirm
        outcomes).code = TTNResponseCode.kTTNSuccessfulTransmission ∨
      (TheThingsNetwork.transmitMessage st payload length port confirm
        outcomes).code = TTNResponseCode.kTTNSuccessfulReceive ∨
      (TheThingsNetwork.transmitMessage st payload length port confirm
        outcomes).code = TTNResponseCode.kTTNErrorTransmissionFailed ∨
      (TheThingsNetwork.transmitMessage st payload length port confirm
        outcomes).code = TTNResponseCode.kTTNErrorUnexpected) ∧
    (st.joined = false →
      (TheThingsNetwork.transmitMessage st payload length port confirm
        outcomes).code = TTNResponseCode.kTTNErrorUnexpected) ∧
    (st.joined = true → st.lastDownlinkCounter < cnt → dl ≠ [] →
      (w = TTNRxTxWindow.kTTNRx1Window ∨ w = TTNRxTxWindow.kTTNRx2Window) →
      (TheThingsNetwork.transmitMessage st payload length port confirm
          [RadioOutcome.frame w cnt ack fPort dl]).code =
        TTNResponseCode.kTTNSuccessfulReceive) := by
  refine ⟨?_, ?_, ?_⟩
  · cases h : (TheThingsNetwork.transmitMessage st payload length port confirm
      outcomes).code <;> simp
  · intro hnj
    simp [TheThingsNetwork.transmitMessage, ttn_transmit_message, hnj]
  · intro hj hlt hne _
    have hEq : TheThingsNetwork.transmitMessage st payload length port confirm
        [RadioOutcome.frame w cnt ack fPort dl] =
          transmitLoop (plannedAirtime st length) confirm
            (maxRetransmissions + 1) st [RadioOutcome.frame w cnt ack fPort dl] := by
      simp [TheThingsNetwork.transmitMessage, ttn_transmit_message, hj]
    rw [hEq]
    cases dl with
    | nil => exact absurd rfl hne
    | cons p ps => simp [transmitLoop, attemptTransmit, hlt]

/-- Claim C4 witness: the not-joined state reports `kTTNErrorUnexpected`,
and an accepted RX1 downlink carrying payload reports
`kTTNSuccessfulReceive`. -/
theorem transmitMessage_responseCodes_witness :
    (TheThingsNetwork.transmitMessage emptyState [1] 1 1 false []).code =
      TTNResponseCode.kTTNErrorUnexpected ∧
    (TheThingsNetwork.transmitMessage sampleState [1] 1 1 false
        [RadioOutcome.frame TTNRxTxWindow.kTTNRx1Window 9 false 2 [5]]).code =
      TTNResponseCode.kTTNSuccessfulReceive :=
  ⟨(transmitMessage_responseCodes emptyState [1] 1 1 false []
      TTNRxTxWindow.kTTNRx1Window 9 2 false [5]).2.1 (by decide),
   (transmitMessage_responseCodes sampleState [1] 1 1 false []
      TTNRxTxWindow.kTTNRx1Window 9 2 false [5]).2.2 (by decide) (by decide)
      (by decide) (Or.inl rfl)⟩
